import Mathlib

/-!
Verification of the haisvg library (src/lib.rs): an in-memory builder for
SVG markup. The Rust types HaiSVGError, PathNode, SVGElement and SVG are
embedded shallowly below; the HashMap of attributes is modelled as an
association list with unique keys, whose list order abstracts the
unspecified iteration order of the hash map (serialization sorts, so the
order is observably irrelevant, which is proved below).
-/

/-- Byte-lexicographic comparison of character lists. Rust sorts the
rendered tokens with the String Ord instance, which compares UTF-8 bytes;
UTF-8 byte order coincides with code-point order, which this computes. -/
def charsLe : List Char → List Char → Bool
  | [], _ => true
  | _ :: _, [] => false
  | a :: as, b :: bs => if a < b then true else if b < a then false else charsLe as bs

/-- The order on strings used by the sort in format_keys. -/
def strLe (a b : String) : Prop := charsLe a.data b.data = true

instance : DecidableRel strLe := fun a b => instDecidableEqBool (charsLe a.data b.data) true

theorem charsLe_total : ∀ as bs, charsLe as bs = true ∨ charsLe bs as = true := by
  intro as
  induction as with
  | nil => intro bs; left; simp [charsLe]
  | cons a as ih =>
    intro bs
    cases bs with
    | nil => right; simp [charsLe]
    | cons b bs =>
      simp only [charsLe]
      rcases lt_trichotomy a b with h | h | h
      · left; simp [h]
      · subst h
        rcases ih bs with h2 | h2
        · left; simp [lt_irrefl, h2]
        · right; simp [lt_irrefl, h2]
      · right; simp [h]

theorem charsLe_trans :
    ∀ as bs cs, charsLe as bs = true → charsLe bs cs = true → charsLe as cs = true := by
  intro as
  induction as with
  | nil => intro bs cs _ _; simp [charsLe]
  | cons a as ih =>
    intro bs cs h1 h2
    cases bs with
    | nil => simp [charsLe] at h1
    | cons b bs =>
      cases cs with
      | nil => simp [charsLe] at h2
      | cons c cs =>
        simp only [charsLe] at h1 h2 ⊢
        rcases lt_trichotomy a b with hab | hab | hab
        · rcases lt_trichotomy b c with hbc | hbc | hbc
          · simp [lt_trans hab hbc]
          · subst hbc; simp [hab]
          · simp [lt_asymm hbc, hbc] at h2
        · subst hab
          simp only [lt_irrefl, if_false] at h1
          rcases lt_trichotomy a c with hac | hac | hac
          · simp [hac]
          · subst hac
            simp only [lt_irrefl, if_false] at h2 ⊢
            exact ih bs cs h1 h2
          · simp [lt_asymm hac, hac] at h2
        · simp [lt_asymm hab, hab] at h1

theorem charsLe_antisymm :
    ∀ as bs, charsLe as bs = true → charsLe bs as = true → as = bs := by
  intro as
  induction as with
  | nil =>
    intro bs _ h2
    cases bs with
    | nil => rfl
    | cons b bs => simp [charsLe] at h2
  | cons a as ih =>
    intro bs h1 h2
    cases bs with
    | nil => simp [charsLe] at h1
    | cons b bs =>
      simp only [charsLe] at h1 h2
      rcases lt_trichotomy a b with hab | hab | hab
      · simp [lt_asymm hab, hab] at h2
      · subst hab
        simp only [lt_irrefl, if_false] at h1 h2
        exact congrArg (a :: ·) (ih bs h1 h2)
      · simp [lt_asymm hab, hab] at h1

instance : IsTotal String strLe := ⟨fun a b => charsLe_total a.data b.data⟩

instance : IsTrans String strLe := ⟨fun a b c => charsLe_trans a.data b.data c.data⟩

instance : IsAntisymm String strLe :=
  ⟨fun a b h1 h2 => String.ext (charsLe_antisymm a.data b.data h1 h2)⟩

/-- Sorting of the rendered tokens: items.sort() in format_keys. Any sort
into ascending strLe order yields the same list, so insertion sort stands
in for the stable merge sort Rust uses. -/
def tokenSort (l : List String) : List String := List.insertionSort strLe l

deriving instance DecidableEq for Except

/-- The single error enum of the library. -/
inductive HaiSVGError where
  | KeyNotFound (key : String)
deriving DecidableEq

/-- The Processable trait: either a pre-formatted String or a vector of
coordinate pairs, with every coordinate already rendered to text. -/
inductive PointsInput where
  | blob (s : String)
  | pts (l : List (String × String))

/-- Processable.process from src/lib.rs: a String passes through, a vector
of pairs renders each pair as x,y and joins with single spaces. -/
def PointsInput.process : PointsInput → String
  | .blob s => s
  | .pts l => String.intercalate " " (l.map fun p => p.1 ++ "," ++ p.2)

/-- A path command: letter tag plus pre-rendered operand text. -/
structure PathNode where
  tag : String
  point_data : String
deriving DecidableEq

def PathNode.move_to (x y : String) : PathNode := ⟨"M", x ++ "," ++ y⟩

def PathNode.move_by (dx dy : String) : PathNode := ⟨"m", dx ++ "," ++ dy⟩

def PathNode.line_to (x y : String) : PathNode := ⟨"L", x ++ "," ++ y⟩

def PathNode.line_by (dx dy : String) : PathNode := ⟨"l", dx ++ "," ++ dy⟩

def PathNode.horizontal_to (x : String) : PathNode := ⟨"H", x⟩

def PathNode.horizontal_by (dx : String) : PathNode := ⟨"h", dx⟩

def PathNode.vertical_to (y : String) : PathNode := ⟨"V", y⟩

def PathNode.vertical_by (dy : String) : PathNode := ⟨"v", dy⟩

def PathNode.cubic_to (x1 y1 x2 y2 x y : String) : PathNode :=
  ⟨"C", x1 ++ "," ++ y1 ++ " " ++ x2 ++ "," ++ y2 ++ " " ++ x ++ "," ++ y⟩

def PathNode.cubic_by (dx1 dy1 dx2 dy2 dx dy : String) : PathNode :=
  ⟨"c", dx1 ++ "," ++ dy1 ++ " " ++ dx2 ++ "," ++ dy2 ++ " " ++ dx ++ "," ++ dy⟩

def PathNode.smooth_cubic_to (x2 y2 x y : String) : PathNode :=
  ⟨"S", x2 ++ "," ++ y2 ++ " " ++ x ++ "," ++ y⟩

def PathNode.smooth_cubic_by (dx2 dy2 dx dy : String) : PathNode :=
  ⟨"s", dx2 ++ "," ++ dy2 ++ " " ++ dx ++ "," ++ dy⟩

def PathNode.quadratic_to (x1 y1 x y : String) : PathNode :=
  ⟨"Q", x1 ++ "," ++ y1 ++ " " ++ x ++ "," ++ y⟩

def PathNode.quadratic_by (dx1 dy1 dx dy : String) : PathNode :=
  ⟨"q", dx1 ++ "," ++ dy1 ++ " " ++ dx ++ "," ++ dy⟩

def PathNode.smooth_quadratic_to (x y : String) : PathNode := ⟨"T", x ++ "," ++ y⟩

def PathNode.smooth_quadratic_by (dx dy : String) : PathNode := ⟨"t", dx ++ "," ++ dy⟩

def PathNode.elliptical_to (rx ry angle large_arc_flag sweep_flag x y : String) : PathNode :=
  ⟨"A", rx ++ " " ++ ry ++ " " ++ angle ++ " " ++ large_arc_flag ++ " " ++ sweep_flag
        ++ " " ++ x ++ "," ++ y⟩

def PathNode.elliptical_by (rx ry angle large_arc_flag sweep_flag dx dy : String) : PathNode :=
  ⟨"a", rx ++ " " ++ ry ++ " " ++ angle ++ " " ++ large_arc_flag ++ " " ++ sweep_flag
        ++ " " ++ dx ++ "," ++ dy⟩

def PathNode.close_path : PathNode := ⟨"Z", ""⟩

/-- The Display impl for PathNode: the tag, a space, the operand text. -/
def PathNode.toText (n : PathNode) : String := n.tag ++ " " ++ n.point_data

/-- The two ToPathNode impls: an existing PathNode, or a bare coordinate
pair whose coordinates are already rendered to text. -/
inductive PathInput where
  | node (n : PathNode)
  | pair (x y : String)

/-- ToPathNode.to_path_node: a PathNode passes through with the supplied
tag ignored; a pair is tagged with the supplied tag and renders x,y. -/
def PathInput.to_path_node : PathInput → String → PathNode
  | .node n, _ => ⟨n.tag, n.point_data⟩
  | .pair x y, tag => ⟨tag, x ++ "," ++ y⟩

/-- HashMap.insert on the association-list model: any existing binding of
the key is removed and the new binding stored. -/
def mapInsert (attrs : List (String × String)) (key value : String) :
    List (String × String) :=
  attrs.filter (fun kv => kv.1 != key) ++ [(key, value)]

/-- One rendered attribute token. -/
def attrToken (kv : String × String) : String := kv.1 ++ "=\"" ++ kv.2 ++ "\""

/-- format_keys shared by SVGElement and SVG: render every entry as a
token, sort, join with single spaces. -/
def format_keys_list (attrs : List (String × String)) : String :=
  String.intercalate " " (tokenSort (attrs.map attrToken))

/-- The SVGElement struct: tag, attribute map, optional inner text. -/
structure SVGElement where
  tag : String
  attributes : List (String × String)
  inner : Option String

def SVGElement.new (tag : String) : SVGElement :=
  ⟨tag, [], none⟩

def SVGElement.add_attr (e : SVGElement) (key value : String) : SVGElement :=
  { e with attributes := mapInsert e.attributes key value }

def SVGElement.get_value (e : SVGElement) (key : String) : Except HaiSVGError String :=
  match e.attributes.lookup key with
  | some v => .ok v
  | none => .error (.KeyNotFound key)

def SVGElement.format_keys (e : SVGElement) : String := format_keys_list e.attributes

/-- The Display impl for SVGElement: opening angle and tag, a space and the
tokens when any exist, then either inner text with a closing tag or a
self-close. -/
def SVGElement.toText (e : SVGElement) : String :=
  let attrs := e.format_keys
  let head := if attrs = "" then "<" ++ e.tag else "<" ++ e.tag ++ " " ++ attrs
  match e.inner with
  | some inner => head ++ ">" ++ inner ++ "</" ++ e.tag ++ ">"
  | none => head ++ " />"

def SVGElement.rect (width height x y : String) (rx ry : Option String) : SVGElement :=
  let rx := rx.getD "0"
  let ry := ry.getD "0"
  ((((((SVGElement.new "rect").add_attr "width" width).add_attr "height" height).add_attr
    "x" x).add_attr "y" y).add_attr "rx" rx).add_attr "ry" ry

def SVGElement.circle (r cx cy : String) : SVGElement :=
  (((SVGElement.new "circle").add_attr "r" r).add_attr "cx" cx).add_attr "cy" cy

def SVGElement.ellipse (rx ry cx cy : String) : SVGElement :=
  ((((SVGElement.new "ellipse").add_attr "rx" rx).add_attr "ry" ry).add_attr
    "cx" cx).add_attr "cy" cy

def SVGElement.line (x1 y1 x2 y2 : String) : SVGElement :=
  ((((SVGElement.new "line").add_attr "x1" x1).add_attr "y1" y1).add_attr
    "x2" x2).add_attr "y2" y2

def SVGElement.polygon (points : PointsInput) : SVGElement :=
  (SVGElement.new "polygon").add_attr "points" points.process

def SVGElement.polyline (points : PointsInput) : SVGElement :=
  (SVGElement.new "polyline").add_attr "points" points.process

def SVGElement.path (d : List PathInput) : SVGElement :=
  let path_items := String.intercalate " " (d.map fun node => (node.to_path_node "").toText)
  (SVGElement.new "path").add_attr "d" path_items

def SVGElement.text (text x y : String) (dx dy rotate text_length length_adjust : Option String) :
    SVGElement :=
  let dx := dx.getD "0"
  let dy := dy.getD "0"
  let rotate := rotate.getD "0"
  let text_length := text_length.getD "none"
  let length_adjust := length_adjust.getD "spacing"
  (((((((⟨"text", [], some text⟩ : SVGElement).add_attr "x" x).add_attr "y" y).add_attr
    "dx" dx).add_attr "dy" dy).add_attr "rotate" rotate).add_attr
    "textLength" text_length).add_attr "lengthAdjust" length_adjust

/-- The SVG struct: document attributes plus the ordered elements. -/
structure SVG where
  attributes : List (String × String)
  elements : List SVGElement

def SVG.add_attr (s : SVG) (key value : String) : SVG :=
  { s with attributes := mapInsert s.attributes key value }

def SVG.add_element (s : SVG) (element : SVGElement) : SVG :=
  { s with elements := s.elements ++ [element] }

def SVG.new (width height : String) (ns : Option String) : SVG :=
  let ns := ns.getD "http://www.w3.org/2000/svg"
  (((⟨[], []⟩ : SVG).add_attr "width" width).add_attr "height" height).add_attr
    "xmlns" ns

def SVG.format_keys (s : SVG) : String := format_keys_list s.attributes

def SVG.format_elements (s : SVG) : String :=
  String.intercalate "\n" (s.elements.map SVGElement.toText)

/-- The Display impl for SVG. -/
def SVG.toText (s : SVG) : String :=
  "<svg " ++ s.format_keys ++ ">\n" ++ s.format_elements ++ "\n</svg>"

theorem lookup_mapInsert_self (l : List (String × String)) (k v : String) :
    List.lookup k (mapInsert l k v) = some v := by
  rw [mapInsert, List.lookup_append]
  have h1 : List.lookup k (l.filter (fun kv => kv.1 != k)) = none := by
    rw [List.lookup_eq_none_iff]
    intro p hp
    have hpk : (p.1 != k) = true := (List.mem_filter.mp hp).2
    exact bne_iff_ne.mpr (Ne.symm (bne_iff_ne.mp hpk))
  rw [h1]
  simp

theorem lookup_filter_ne (l : List (String × String)) (k k2 : String) (h : k2 ≠ k) :
    List.lookup k2 (l.filter (fun kv => kv.1 != k)) = List.lookup k2 l := by
  induction l with
  | nil => rfl
  | cons a t ih =>
    obtain ⟨a1, a2⟩ := a
    by_cases hak : a1 = k
    · subst hak
      have hb : (k2 == a1) = false := beq_eq_false_iff_ne.mpr h
      simp [List.filter_cons, List.lookup_cons, hb, ih]
    · simp [List.filter_cons, hak, List.lookup_cons, ih]

theorem lookup_mapInsert_ne (l : List (String × String)) (k v k2 : String) (h : k2 ≠ k) :
    List.lookup k2 (mapInsert l k v) = List.lookup k2 l := by
  rw [mapInsert, List.lookup_append]
  have h2 : List.lookup k2 [(k, v)] = none := by
    have hb : (k2 == k) = false := beq_eq_false_iff_ne.mpr h
    simp [List.lookup_cons, hb]
  rw [h2, lookup_filter_ne l k k2 h]
  simp

theorem lookup_isSome_iff_mem (l : List (String × String)) (k : String) :
    (List.lookup k l).isSome ↔ k ∈ l.map Prod.fst := by
  simp only [List.lookup_isSome_iff, List.mem_map, beq_iff_eq]
  constructor
  · rintro ⟨p, hp, rfl⟩
    exact ⟨p, hp, rfl⟩
  · rintro ⟨p, hp, rfl⟩
    exact ⟨p, hp, rfl⟩

theorem get_value_add_attr_self (e : SVGElement) (k v : String) :
    (e.add_attr k v).get_value k = .ok v := by
  simp [SVGElement.add_attr, SVGElement.get_value, lookup_mapInsert_self]

theorem get_value_add_attr_ne (e : SVGElement) (k v k2 : String) (h : k2 ≠ k) :
    (e.add_attr k v).get_value k2 = e.get_value k2 := by
  simp [SVGElement.add_attr, SVGElement.get_value, lookup_mapInsert_ne _ _ _ _ h]

/-- C1, counterexample: an Element with empty attribute map serializes with
a single space before the self-close, namely as the text lt t space slash gt,
and not with the double space the claim states. -/
theorem C1_counterexample_single_space :
    (SVGElement.new "t").toText = "<t />" ∧ (SVGElement.new "t").toText ≠ "<t  />" :=
  ⟨by decide, by decide⟩

/-- C1 (amended): for every Element whose inner text is absent, when the
attribute map is nonempty serialization renders the opening angle, the tag,
a space, the attrs text, then a space and the self-close; when the
attribute map is empty it renders the tag followed by a single space and
the self-close (no double space). The Element with tag test_element and
single attribute test_attr set to foo serializes exactly as the claim
states. -/
theorem C1_selfclose_render (e : SVGElement) (h : e.inner = none) :
    (e.format_keys ≠ "" → e.toText = "<" ++ e.tag ++ " " ++ e.format_keys ++ " />")
    ∧ (e.format_keys = "" → e.toText = "<" ++ e.tag ++ " />")
    ∧ ((SVGElement.new "test_element").add_attr "test_attr" "foo").toText
        = "<test_element test_attr=\"foo\" />" := by
  refine ⟨?_, ?_, by decide⟩
  · intro hne
    simp [SVGElement.toText, h, hne]
  · intro he
    simp [SVGElement.toText, h, he]

theorem C1_selfclose_render_witness :
    (SVGElement.new "t").toText = "<" ++ "t" ++ " />" :=
  (C1_selfclose_render (SVGElement.new "t") rfl).2.1 (by decide)

/-- C2, counterexample: the rendered tokens are sorted as whole token
strings, not by key. With keys x and x1, the key x sorts strictly before
the key x1 in byte order, yet serialization puts the x1 token first,
because the equals-quote that follows the key x in its token compares
greater than the digit 1. -/
theorem C2_counterexample_not_key_sorted :
    (((SVGElement.new "e").add_attr "x" "a").add_attr "x1" "b").format_keys
        = "x1=\"b\" x=\"a\""
    ∧ strLe "x" "x1" ∧ ¬ strLe "x1" "x" :=
  ⟨by decide, by decide, by decide⟩

/-- C2 (amended): for every attribute map, regardless of the sequence of
set-attribute calls that built it (modelled: regardless of the order in
which the underlying hash map yields its entries), serialization produces
one rendered token per entry, with the tokens sorted ascending by the
whole rendered token text in byte order (which follows key order except
when one key is a proper prefix of another), joined by a single space; an
empty map serializes to empty text. -/
theorem C2_format_keys_token_sorted (attrs1 attrs2 : List (String × String))
    (hperm : attrs1.Perm attrs2) :
    format_keys_list attrs1 = format_keys_list attrs2
    ∧ (tokenSort (attrs1.map attrToken)).Perm (attrs1.map attrToken)
    ∧ List.Sorted strLe (tokenSort (attrs1.map attrToken))
    ∧ format_keys_list [] = "" := by
  refine ⟨?_, List.perm_insertionSort _ _, List.sorted_insertionSort _ _, rfl⟩
  unfold format_keys_list
  congr 1
  apply List.eq_of_perm_of_sorted (r := strLe)
  · exact (List.perm_insertionSort _ _).trans
      ((hperm.map _).trans (List.perm_insertionSort _ _).symm)
  · exact List.sorted_insertionSort _ _
  · exact List.sorted_insertionSort _ _

theorem C2_format_keys_token_sorted_witness :
    format_keys_list [("a", "1"), ("b", "2")] = format_keys_list [("b", "2"), ("a", "1")] :=
  (C2_format_keys_token_sorted [("a", "1"), ("b", "2")] [("b", "2"), ("a", "1")]
    (List.Perm.swap ("b", "2") ("a", "1") [])).1

/-- C3: the Document constructor presets width, height and xmlns, with
xmlns defaulting to the SVG namespace URI when no namespace is given; for
every Document, serialization renders the svg open tag with its attrs,
then each element on its own line joined by single newlines in insertion
order, then the svg close tag; zero elements yields an empty line between
the two markers. -/
theorem C3_svg_new_and_render (w h : String) (ns : Option String) (s : SVG) :
    (SVG.new w h ns).attributes.lookup "width" = some w
    ∧ (SVG.new w h ns).attributes.lookup "height" = some h
    ∧ (SVG.new w h ns).attributes.lookup "xmlns" = some (ns.getD "http://www.w3.org/2000/svg")
    ∧ (SVG.new w h none).attributes.lookup "xmlns" = some "http://www.w3.org/2000/svg"
    ∧ (∀ e, (s.add_element e).elements = s.elements ++ [e])
    ∧ s.toText = "<svg " ++ s.format_keys ++ ">\n"
        ++ String.intercalate "\n" (s.elements.map SVGElement.toText) ++ "\n</svg>"
    ∧ (s.elements = [] → s.toText = "<svg " ++ s.format_keys ++ ">\n" ++ "" ++ "\n</svg>") := by
  refine ⟨rfl, rfl, rfl, rfl, fun e => rfl, rfl, ?_⟩
  intro he
  rw [SVG.toText, SVG.format_elements, he]
  rfl

theorem C3_svg_new_and_render_witness :
    (SVG.new "100" "100" none).toText
      = "<svg " ++ (SVG.new "100" "100" none).format_keys ++ ">\n" ++ "" ++ "\n</svg>" :=
  (C3_svg_new_and_render "100" "100" none (SVG.new "100" "100" none)).2.2.2.2.2.2 rfl

/-- C4: every path command renders as its letter, a space, and its operand
text; the close-path command renders as the letter Z followed by a
trailing space; the path built from moveTo 0 0, lineTo 10 10, closePath
stores exactly the claimed d attribute text with its trailing space. -/
theorem C4_path_command_render (letter operand : String) :
    (PathNode.mk letter operand).toText = letter ++ " " ++ operand
    ∧ PathNode.close_path.toText = "Z "
    ∧ (SVGElement.path [.node (PathNode.move_to "0" "0"), .node (PathNode.line_to "10" "10"),
        .node PathNode.close_path]).get_value "d" = .ok "M 0,0 L 10,10 Z " :=
  ⟨rfl, rfl, by decide⟩

/-- C5: coercion of an existing path command returns it unchanged with the
override letter ignored, and coercion of a bare coordinate pair produces a
command tagged with the caller-supplied letter and comma-joined operand
text. -/
theorem C5_to_path_node_coercion (n : PathNode) (tag x y : String) :
    PathInput.to_path_node (.node n) tag = n
    ∧ PathInput.to_path_node (.pair x y) tag = ⟨tag, x ++ "," ++ y⟩ :=
  ⟨rfl, rfl⟩

/-- C6: after setting key k to value v, getting k returns v, overwriting
any previous value; getting a key that is not in the map fails with
KeyNotFound of that key; a get succeeds exactly when the key is present;
and every error a get produces is a KeyNotFound of the requested key,
KeyNotFound being the only constructor of the error type. -/
theorem C6_get_value_spec (e : SVGElement) (k v : String) :
    (e.add_attr k v).get_value k = .ok v
    ∧ (e.attributes.lookup k = none → e.get_value k = .error (.KeyNotFound k))
    ∧ ((∃ w, e.get_value k = .ok w) ↔ k ∈ e.attributes.map Prod.fst)
    ∧ (∀ err, e.get_value k = .error err → err = .KeyNotFound k) := by
  refine ⟨?_, ?_, ?_, ?_⟩
  · simp [SVGElement.add_attr, SVGElement.get_value, lookup_mapInsert_self]
  · intro hn
    simp [SVGElement.get_value, hn]
  · rw [← lookup_isSome_iff_mem]
    constructor
    · rintro ⟨w, hw⟩
      rcases hl : List.lookup k e.attributes with _ | w2
      · simp [SVGElement.get_value, hl] at hw
      · simp [hl]
    · intro hk
      rcases hl : List.lookup k e.attributes with _ | w2
      · rw [hl] at hk
        simp at hk
      · exact ⟨w2, by simp [SVGElement.get_value, hl]⟩
  · intro err herr
    rcases hl : List.lookup k e.attributes with _ | w2
    · simp [SVGElement.get_value, hl] at herr
      exact herr.symm
    · simp [SVGElement.get_value, hl] at herr

theorem C6_get_value_spec_witness :
    ((SVGElement.new "t").add_attr "k" "v").get_value "k" = .ok "v"
    ∧ (SVGElement.new "t").get_value "missing" = .error (.KeyNotFound "missing") :=
  ⟨(C6_get_value_spec (SVGElement.new "t") "k" "v").1,
   (C6_get_value_spec (SVGElement.new "t") "missing" "v").2.1 rfl⟩

/-- C7: a pre-formatted text blob passes through points-list formatting
unchanged; a sequence of coordinate pairs renders with a comma inside each
pair and a single space between pairs; the three-point example renders as
claimed; the empty sequence renders to empty text. -/
theorem C7_points_list_format (s : String) (l : List (String × String)) :
    (PointsInput.blob s).process = s
    ∧ (PointsInput.pts l).process
        = String.intercalate " " (l.map fun p => p.1 ++ "," ++ p.2)
    ∧ (PointsInput.pts [("0", "0"), ("1", "1"), ("2", "2")]).process = "0,0 1,1 2,2"
    ∧ (PointsInput.pts []).process = "" :=
  ⟨rfl, rfl, by decide, rfl⟩

/-- C8: the rectangle constructor defaults absent corner radii to the text
0; the text constructor defaults absent dx, dy and rotate to 0, textLength
to none and lengthAdjust to spacing, and stores its content as inner text;
the text constructor is the only named constructor producing an Element
with inner text present, every other constructor yields inner text
absent. -/
theorem C8_constructor_defaults (w h x y content tg : String)
    (rx ry dx dy rot tl la : Option String) (pts : PointsInput) (d : List PathInput) :
    (SVGElement.rect w h x y none none).get_value "rx" = .ok "0"
    ∧ (SVGElement.rect w h x y none none).get_value "ry" = .ok "0"
    ∧ (SVGElement.text content x y none none none none none).get_value "dx" = .ok "0"
    ∧ (SVGElement.text content x y none none none none none).get_value "dy" = .ok "0"
    ∧ (SVGElement.text content x y none none none none none).get_value "rotate" = .ok "0"
    ∧ (SVGElement.text content x y none none none none none).get_value "textLength"
        = .ok "none"
    ∧ (SVGElement.text content x y none none none none none).get_value "lengthAdjust"
        = .ok "spacing"
    ∧ (SVGElement.text content x y dx dy rot tl la).inner = some content
    ∧ (SVGElement.new tg).inner = none
    ∧ (SVGElement.rect w h x y rx ry).inner = none
    ∧ (SVGElement.circle w h x).inner = none
    ∧ (SVGElement.ellipse w h x y).inner = none
    ∧ (SVGElement.line w h x y).inner = none
    ∧ (SVGElement.polygon pts).inner = none
    ∧ (SVGElement.polyline pts).inner = none
    ∧ (SVGElement.path d).inner = none := by
  refine ⟨?_, ?_, ?_, ?_, ?_, ?_, ?_, rfl, rfl, rfl, rfl, rfl, rfl, rfl, rfl, rfl⟩
  · rw [SVGElement.rect, get_value_add_attr_ne _ _ _ _ (by decide), get_value_add_attr_self]
    rfl
  · rw [SVGElement.rect, get_value_add_attr_self]
    rfl
  · rw [SVGElement.text, get_value_add_attr_ne _ _ _ _ (by decide),
      get_value_add_attr_ne _ _ _ _ (by decide), get_value_add_attr_ne _ _ _ _ (by decide),
      get_value_add_attr_ne _ _ _ _ (by decide), get_value_add_attr_self]
    rfl
  · rw [SVGElement.text, get_value_add_attr_ne _ _ _ _ (by decide),
      get_value_add_attr_ne _ _ _ _ (by decide), get_value_add_attr_ne _ _ _ _ (by decide),
      get_value_add_attr_self]
    rfl
  · rw [SVGElement.text, get_value_add_attr_ne _ _ _ _ (by decide),
      get_value_add_attr_ne _ _ _ _ (by decide), get_value_add_attr_self]
    rfl
  · rw [SVGElement.text, get_value_add_attr_ne _ _ _ _ (by decide), get_value_add_attr_self]
    rfl
  · rw [SVGElement.text, get_value_add_attr_self]
    rfl

/-- C9: path element construction coerces every item with the empty string
as the command letter, so a bare coordinate pair placed directly in the
sequence renders inside the d attribute as an empty letter, a space, and
the comma-joined coordinates, not with a caller-chosen letter. -/
theorem C9_path_empty_letter (x y : String) (d : List PathInput) :
    ((PathInput.pair x y).to_path_node "").toText = " " ++ x ++ "," ++ y
    ∧ (SVGElement.path d).get_value "d"
        = .ok (String.intercalate " " (d.map fun node => (node.to_path_node "").toText))
    ∧ (SVGElement.path [.pair "0" "0"]).get_value "d" = .ok " 0,0" := by
  refine ⟨?_, rfl, by decide⟩
  show ("" : String) ++ " " ++ (x ++ "," ++ y) = " " ++ x ++ "," ++ y
  simp [String.append_assoc]

/-- C10: setting an attribute changes only the entry for that key: the tag,
the inner text, and the value stored under every other key are the same
before and after the call. -/
theorem C10_add_attr_frame (e : SVGElement) (k v k2 : String) (h : k2 ≠ k) :
    (e.add_attr k v).tag = e.tag
    ∧ (e.add_attr k v).inner = e.inner
    ∧ (e.add_attr k v).get_value k2 = e.get_value k2 := by
  refine ⟨rfl, rfl, ?_⟩
  simp [SVGElement.add_attr, SVGElement.get_value, lookup_mapInsert_ne _ _ _ _ h]

theorem C10_add_attr_frame_witness :
    ((SVGElement.new "t").add_attr "a" "1").get_value "b"
      = (SVGElement.new "t").get_value "b" :=
  (C10_add_attr_frame (SVGElement.new "t") "a" "1" "b" (by decide)).2.2
